import Mathlib

/-
Verification of the Meiko faster-whisper transcription wrapper.

The development shallowly embeds the two Python source files:
  * fasterWhisper.py  — CLI wrapper around the external faster-whisper library
    (validator `validate_audio_file`, class `FasterWhisperTranscriber`, `main`);
  * test_transcription.py — smoke-test harness (`test_transcription`).

Python strings that we reason about character by character are modelled as
`List Char`; strings used only for equality tests are Lean `String`s.
The filesystem is an abstract map from path to file size (`none` = the path
does not exist).  The external speech library is an opaque function from the
decode-call parameters to a decode outcome.  Machine floats (wall-clock
times) are modelled as exact rationals; binary floating-point representation
error is out of scope.
-/

namespace Meiko

/-- Abstract filesystem: a path maps to `some size` (bytes) when it exists,
`none` when it does not.  Models the read-only metadata queries
`os.path.exists` and `os.path.getsize` used by fasterWhisper.py. -/
def FileSystem : Type := String → Option Nat

/-- `os.path.exists(p)`: the path is present in the filesystem map. -/
def os_path_exists (fs : FileSystem) (p : String) : Bool :=
  (fs p).isSome

/-- `os.path.getsize(p)`: returns the size, raising `OSError`
(modelled as `Except.error`) when the path does not exist. -/
def os_path_getsize (fs : FileSystem) (p : String) : Except String Nat :=
  match fs p with
  | some sz => Except.ok sz
  | none => Except.error "No such file or directory"

/-- Python whitespace characters recognised by `str.strip()` (ASCII part;
the audio-text domain here is ASCII, Unicode space classes are not used). -/
def isPySpace (c : Char) : Bool :=
  c = ' ' ∨ c = '\t' ∨ c = '\n' ∨ c = '\r' ∨ c = '\x0b' ∨ c = '\x0c'

/-- Left part of Python `str.strip()`: drop leading whitespace. -/
def pyLstrip (s : List Char) : List Char :=
  s.dropWhile isPySpace

/-- Right part of Python `str.strip()`: drop trailing whitespace. -/
def pyRstrip (s : List Char) : List Char :=
  (s.reverse.dropWhile isPySpace).reverse

/-- Python `str.strip()` with no argument: remove leading and trailing
whitespace. -/
def pyStrip (s : List Char) : List Char :=
  pyLstrip (pyRstrip s)

/-- Python `str.lower()` (ASCII; the extension allow-list is ASCII). -/
def pyLower (s : String) : String :=
  String.mk (s.data.map Char.toLower)

/-- `pathlib.PurePath(p).name`: the final path component — trailing slashes
dropped, then the characters after the last slash. -/
def pyPathName (p : List Char) : List Char :=
  let stripped := (p.reverse.dropWhile (fun c => c = '/')).reverse
  (stripped.reverse.takeWhile (fun c => c ≠ '/')).reverse

/-- `pathlib.PurePath(p).suffix`: the extension of the final component.
CPython computes `i = name.rfind(".")` and returns `name[i:]` when
`0 < i < len(name) - 1`, else the empty string.  Equivalently, with
`ext` the maximal dot-free run ending the name: the suffix is `"." + ext`
when `ext` is nonempty and at least one character precedes the dot. -/
def pyPathSuffix (p : String) : String :=
  let name := pyPathName p.data
  let rev := name.reverse
  let ext := rev.takeWhile (fun c => c ≠ '.')
  if ext ≠ [] ∧ ext.length + 1 < rev.length then
    String.mk ('.' :: ext.reverse)
  else ""

/-- The fixed extension allow-list of `validate_audio_file`
(`valid_extensions = .mp3 .wav .m4a .ogg .flac .aac`, a Python set literal,
modelled as a duplicate-free list). -/
def valid_extensions : List String :=
  [".mp3", ".wav", ".m4a", ".ogg", ".flac", ".aac"]

/-- `validate_audio_file(file_path)` from fasterWhisper.py:
existence check first, then the 1024-byte minimum size, then the
case-insensitive extension allow-list.  The `Except` layer records that
`os.path.getsize` could raise; the theorems show it never does here. -/
def validate_audio_file (fs : FileSystem) (file_path : String) :
    Except String Bool := do
  if ¬ os_path_exists fs file_path then
    return false
  let fsize ← os_path_getsize fs file_path
  if fsize < 1024 then
    return false
  let file_ext := pyLower (pyPathSuffix file_path)
  return decide (file_ext ∈ valid_extensions)

/-- Language normalization in `FasterWhisperTranscriber.__init__`:
`self.language = language if language and language != "auto" else None`.
`none` models Python `None`; the empty string is falsy in Python. -/
def initLanguage (language : Option String) : Option String :=
  match language with
  | none => none
  | some l => if l ≠ "" ∧ l ≠ "auto" then some l else none

/-- The hand-off of the parsed `--language` flag from `main` to the
constructor:
`args.language if args.language != "auto" else None`. -/
def cliLanguageArg (argLanguage : String) : Option String :=
  if argLanguage ≠ "auto" then some argLanguage else none

/-- JSON values, as produced by `json.dumps` on the dictionaries built in
fasterWhisper.py.  Numbers are exact rationals (wall-clock floats are kept
abstract as rational parameters). -/
inductive Json : Type where
  | null : Json
  | str : String → Json
  | num : ℚ → Json
  | obj : List (String × Json) → Json

/-- A Python `Optional[str]` value serialized into JSON. -/
def jsonOptStr : Option String → Json
  | some s => Json.str s
  | none => Json.null

/-- `json.dumps(dict(error=msg))`: the error object every failure path of
`main` prints. -/
def errorJson (msg : String) : Json :=
  Json.obj [("error", Json.str msg)]

/-- The keyword arguments `transcribe_file` passes to
`self.model.transcribe(...)` (fasterWhisper.py lines 103–123). -/
structure DecodeCall : Type where
  audio_path : String
  language : Option String
  beam_size : Nat
  best_of : Nat
  patience : ℚ
  temperature : ℚ
  condition_on_previous_text : Bool
  vad_filter : Bool
  min_silence_duration_ms : Nat
  threshold : ℚ
  speech_pad_ms : Nat
  word_timestamps : Bool
  without_timestamps : Bool

/-- The decode-call parameter record that `transcribe_file` builds:
the configured language plus the fixed tuning constants of the source. -/
def decode_call (selfLanguage : Option String) (audio_path : String) :
    DecodeCall :=
  { audio_path := audio_path
    language := selfLanguage
    beam_size := 1
    best_of := 1
    patience := 1
    temperature := 0
    condition_on_previous_text := false
    vad_filter := true
    min_silence_duration_ms := 500
    threshold := 1/2
    speech_pad_ms := 400
    word_timestamps := false
    without_timestamps := true }

/-- Outcome of one call into the external library from inside the `try`
block of `transcribe_file`: the segment texts and the `info` object
(`infoLanguage = none` models an `info` without a `language` attribute,
`some v` an attribute holding the Python value `v`); or a
`KeyboardInterrupt`; or any other exception with its message. -/
inductive DecodeResult : Type where
  | success (segments : List (List Char)) (infoLanguage : Option (Option String))
  | interrupt
  | fail (msg : String)

/-- The external faster-whisper library, an opaque map from the decode-call
parameters to an outcome. -/
def LibBehavior : Type := DecodeCall → DecodeResult

/-- Exceptions that can escape `transcribe_file` into the handlers of
`main`. -/
inductive PyExc : Type where
  | keyboardInterrupt
  | error (msg : String)

/-- The segment-aggregation loop of `transcribe_file`
(lines 126–134): `full_text += segment.text + " "` over all segments,
then `full_text.strip()`. -/
def combineSegments (segments : List (List Char)) : List Char :=
  pyStrip (segments.foldl (fun full_text t => full_text ++ (t ++ [' '])) [])

/-- Modelled from the words of the spec (§4.2): the segment texts
"concatenated with a single separating space" between consecutive
segments, before the final trim. -/
def joinWithSingleSpace : List (List Char) → List Char
  | [] => []
  | [t] => t
  | t :: ts => t ++ [' '] ++ joinWithSingleSpace ts

/-- Python `round` ties-to-even on an exact rational. -/
def pyRoundHalfEven (q : ℚ) : ℤ :=
  let f := ⌊q⌋
  if q - f < 1/2 then f
  else if 1/2 < q - f then f + 1
  else if f % 2 = 0 then f else f + 1

/-- `round(x, 2)` from fasterWhisper.py line 145, on the exact rational
value (binary floating-point representation error is out of scope). -/
def pyRound2 (q : ℚ) : ℚ :=
  (pyRoundHalfEven (q * 100) : ℚ) / 100

/-- The `language` field of the result dictionary (line 141):
`info.language if hasattr(info, "language") else self.language`. -/
def resultLanguage (infoLanguage : Option (Option String))
    (selfLanguage : Option String) : Option String :=
  match infoLanguage with
  | some v => v
  | none => selfLanguage

/-- `FasterWhisperTranscriber.transcribe_file(audio_path)`, output view:
re-checks existence (raising `FileNotFoundError`), invokes the library with
the fixed decode parameters, aggregates segments, and assembles the result
dictionary in source order.  `transcription_time` abstracts the measured
wall-clock duration of the decode call.  Lazy model loading is a separate
state model below (`transcribe_call`). -/
def transcribe_file (model_size : String) (selfLanguage : Option String)
    (fs : FileSystem) (audio_path : String) (lib : LibBehavior)
    (transcription_time : ℚ) : Except PyExc (List (String × Json)) :=
  match fs audio_path with
  | none => Except.error (PyExc.error ("Audio file not found: " ++ audio_path))
  | some fsize =>
    match lib (decode_call selfLanguage audio_path) with
    | DecodeResult.interrupt => Except.error PyExc.keyboardInterrupt
    | DecodeResult.fail msg => Except.error (PyExc.error msg)
    | DecodeResult.success segments infoLanguage =>
      Except.ok
        [("text", Json.str (String.mk (combineSegments segments))),
         ("language", jsonOptStr (resultLanguage infoLanguage selfLanguage)),
         ("duration", Json.num transcription_time),
         ("segments", Json.num (segments.length : ℚ)),
         ("model_size", Json.str model_size),
         ("file_size_mb", Json.num (pyRound2 ((fsize : ℚ) / (1024 * 1024))))]

/-- The parsed CLI arguments of `main` (argparse defaults included). -/
structure CliArgs : Type where
  audio_file : String
  model : String := "tiny"
  language : String := "en"
  device : String := "cpu"
  verbose : Bool := false

/-- Observable outcome of one `main` run: the JSON objects printed on
standard output (one `Json` per `print(json.dumps(...))`), the process
exit code, and the root logging level (`--verbose` sets INFO = 20,
otherwise the configured WARNING = 30). -/
structure MainResult : Type where
  stdout : List Json
  exitCode : Nat
  logLevel : Nat

/-- `main()` from fasterWhisper.py (lines 172–224): validation, transcriber
construction, transcription, and the three `except` outcomes.  The `try`
block wraps validation too, so a (never occurring) exception from
`validate_audio_file` would land in the generic handler. -/
def mainRun (args : CliArgs) (fs : FileSystem) (lib : LibBehavior)
    (transcription_time : ℚ) : MainResult :=
  let logLevel := if args.verbose then 20 else 30
  match validate_audio_file fs args.audio_file with
  | Except.error msg =>
      { stdout := [errorJson ("Transcription failed: " ++ msg)]
        exitCode := 1, logLevel := logLevel }
  | Except.ok false =>
      { stdout := [errorJson ("Invalid or missing audio file: " ++ args.audio_file)]
        exitCode := 1, logLevel := logLevel }
  | Except.ok true =>
      let selfLanguage := initLanguage (cliLanguageArg args.language)
      match transcribe_file args.model selfLanguage fs args.audio_file lib
          transcription_time with
      | Except.ok result =>
          { stdout := [Json.obj result], exitCode := 0, logLevel := logLevel }
      | Except.error PyExc.keyboardInterrupt =>
          { stdout := [errorJson "Transcription cancelled by user"]
            exitCode := 1, logLevel := logLevel }
      | Except.error (PyExc.error msg) =>
          { stdout := [errorJson ("Transcription failed: " ++ msg)]
            exitCode := 1, logLevel := logLevel }

/-- Model-handle state of a `FasterWhisperTranscriber` instance:
`self.model`, `None` until `load_model` runs.  Handles are abstract
identifiers. -/
structure TranscriberState : Type where
  model : Option Nat
deriving DecidableEq

/-- `__init__` sets `self.model = None`. -/
def initTranscriber : TranscriberState := { model := none }

/-- Observable interactions with the external library during one
`transcribe_file` call: constructing a `WhisperModel` (`load`) and calling
`self.model.transcribe` (`decode`), each tagged with the handle involved. -/
inductive ModelEvent : Type where
  | load (handle : Nat)
  | decode (handle : Nat)
deriving DecidableEq

/-- Lazy-initialization view of one `transcribe_file` call (lines 95–96 and
103): `if self.model is None: self.load_model()`, then decode with the held
handle.  `fresh` is the handle `WhisperModel(...)` would return if
construction happens on this call. -/
def transcribe_call (s : TranscriberState) (fresh : Nat) :
    TranscriberState × List ModelEvent :=
  match s.model with
  | none => ({ model := some fresh }, [ModelEvent.load fresh, ModelEvent.decode fresh])
  | some h => (s, [ModelEvent.decode h])

/-- A sequence of `transcribe_file` calls on one instance, threading
`self.model` and collecting the library interactions in order. -/
def runTranscribeCalls (s : TranscriberState) :
    List Nat → TranscriberState × List ModelEvent
  | [] => (s, [])
  | fresh :: rest =>
      let step := transcribe_call s fresh
      let tail := runTranscribeCalls step.1 rest
      (tail.1, step.2 ++ tail.2)

/-- Number of `WhisperModel` constructions in an interaction trace. -/
def countLoads (evs : List ModelEvent) : Nat :=
  (evs.filter (fun e => match e with
    | ModelEvent.load _ => true
    | ModelEvent.decode _ => false)).length

/-- Outcomes of the transcription attempt inside `test_transcription`
(test_transcription.py lines 69–99), reached only when a test audio file
was created: the subprocess exits 0 with parseable JSON, exits 0 with
unparseable JSON, exits nonzero, times out, or raises some other caught
exception. -/
inductive TestRunOutcome : Type where
  | exit0ValidJson
  | exit0InvalidJson
  | exitNonzero
  | timeoutExpired
  | otherException
deriving DecidableEq

/-- The `try` block of the transcription test, tracking whether the test
audio file still exists (`Bool`) and whether the function returned inside
the block (`some` return value).  Only the valid-JSON success branch runs
`os.remove(test_file); return True` inside the block. -/
def test_transcription_body (fileExists : Bool) (o : TestRunOutcome) :
    Bool × Option Bool :=
  match o with
  | TestRunOutcome.exit0ValidJson => (false, some true)
  | TestRunOutcome.exit0InvalidJson => (fileExists, none)
  | TestRunOutcome.exitNonzero => (fileExists, none)
  | TestRunOutcome.timeoutExpired => (fileExists, none)
  | TestRunOutcome.otherException => (fileExists, none)

/-- The cleanup after the `try` block (lines 101–103):
`if os.path.exists(test_file): os.remove(test_file)` — skipped when the
block already returned. -/
def test_transcription_cleanup (st : Bool × Option Bool) : Bool × Option Bool :=
  match st.2 with
  | some b => (st.1, some b)
  | none => (if st.1 then false else st.1, none)

/-- Whether the synthesized test audio file still exists when
`test_transcription` leaves the audio-test section, for each outcome,
starting from the state in which the file was created. -/
def test_transcription_fileState (o : TestRunOutcome) : Bool :=
  (test_transcription_cleanup (test_transcription_body true o)).1

/-- Fixture filesystem for the witnesses: one valid mp3, one undersized
wav, one oversized text file. -/
def fsW : FileSystem := fun p =>
  if p = "song.mp3" then some 4096
  else if p = "tiny.wav" then some 500
  else if p = "notes.txt" then some 4096
  else none

/-- Fixture library behaviour: an empty decode with detected language. -/
def libW : LibBehavior := fun _ =>
  DecodeResult.success [] (some (some "en"))

/-- The run of `transcribe_file` used by the C3 fixtures. -/
def c3SampleRun : Except PyExc (List (String × Json)) :=
  transcribe_file "tiny" (some "en") fsW "song.mp3" libW 0

/-- The result dictionary of the C3 fixture run. -/
def c3SampleResult : List (String × Json) :=
  match c3SampleRun with
  | Except.ok r => r
  | Except.error _ => []

/-- The JSON keys of the C3 fixture result, in serialization order. -/
def c3SampleKeys : List String :=
  c3SampleResult.map Prod.fst

/-- Fixture result for the C6 witness: auto-detect configuration. -/
def c6SampleResult : List (String × Json) :=
  match transcribe_file "tiny" none fsW "song.mp3" libW 0 with
  | Except.ok r => r
  | Except.error _ => []

/-- Fixture result for the C4 witness: an empty segment sequence. -/
def c4SampleResult : List (String × Json) :=
  match transcribe_file "tiny" (some "fr") fsW "song.mp3" libW 0 with
  | Except.ok r => r
  | Except.error _ => []

theorem validate_eq_of_missing (fs : FileSystem) (p : String)
    (h : fs p = none) : validate_audio_file fs p = Except.ok false := by
  simp [validate_audio_file, os_path_exists, h, pure, Except.pure]

theorem validate_eq_of_small (fs : FileSystem) (p : String) (sz : Nat)
    (h : fs p = some sz) (hsz : sz < 1024) :
    validate_audio_file fs p = Except.ok false := by
  simp [validate_audio_file, os_path_exists, os_path_getsize, h, hsz,
    Bind.bind, Except.bind, pure, Except.pure]

theorem validate_eq_of_large (fs : FileSystem) (p : String) (sz : Nat)
    (h : fs p = some sz) (hsz : ¬ sz < 1024) :
    validate_audio_file fs p
      = Except.ok (decide (pyLower (pyPathSuffix p) ∈ valid_extensions)) := by
  simp [validate_audio_file, os_path_exists, os_path_getsize, h, hsz,
    Bind.bind, Except.bind, pure, Except.pure]

/-- C10: the constructor normalizes `None`, the empty string and `"auto"`
to a configured language of `None`, and stores every other string
verbatim. -/
theorem claim_C10_constructor_language_normalization :
    initLanguage none = none ∧
    initLanguage (some "") = none ∧
    initLanguage (some "auto") = none ∧
    ∀ l : String, l ≠ "" → l ≠ "auto" → initLanguage (some l) = some l := by
  refine ⟨rfl, by simp [initLanguage], by simp [initLanguage], ?_⟩
  intro l h1 h2
  simp [initLanguage, h1, h2]

theorem claim_C10_witness :
    initLanguage (some "en") = some "en" :=
  claim_C10_constructor_language_normalization.2.2.2 "en"
    (by decide) (by decide)

/-- C9: `validate_audio_file` is total — it always returns a boolean and
never propagates an exception, because the size query runs only under the
existence guard; a missing path yields `false`. -/
theorem claim_C9_validator_total_and_guarded (fs : FileSystem) (p : String) :
    (∃ b, validate_audio_file fs p = Except.ok b) ∧
    (fs p = none → validate_audio_file fs p = Except.ok false) := by
  cases h : fs p with
  | none =>
      exact ⟨⟨false, validate_eq_of_missing fs p h⟩,
        fun _ => validate_eq_of_missing fs p h⟩
  | some sz =>
      refine ⟨?_, fun hn => by simp [h] at hn⟩
      by_cases hsz : sz < 1024
      · exact ⟨false, validate_eq_of_small fs p sz h hsz⟩
      · exact ⟨decide (pyLower (pyPathSuffix p) ∈ valid_extensions),
          validate_eq_of_large fs p sz h hsz⟩

theorem claim_C9_witness :
    validate_audio_file (fun _ => none) "missing.wav" = Except.ok false :=
  (claim_C9_validator_total_and_guarded (fun _ => none) "missing.wav").2 rfl

/-- C7: on every outcome of the audio test — valid JSON, invalid JSON,
nonzero exit, timeout, other caught exception — the synthesized test audio
file has been removed by the time the harness leaves the audio-test
section. -/
theorem claim_C7_harness_always_cleans_up :
    ∀ o : TestRunOutcome, test_transcription_fileState o = false := by
  intro o
  cases o <;> rfl

/-- C6: with `--language auto` the decode call receives a null language,
and the result language is the library-detected one when the info object
carries it, otherwise the configured language. -/
theorem claim_C6_auto_language_and_detection :
    (∀ audio_path : String,
      (decode_call (initLanguage (cliLanguageArg "auto")) audio_path).language
        = none) ∧
    (∀ (model_size : String) (selfLanguage : Option String) (fs : FileSystem)
        (path : String) (lib : LibBehavior) (t : ℚ) (sz : Nat)
        (segments : List (List Char)) (infoLanguage : Option (Option String))
        (r : List (String × Json)),
      fs path = some sz →
      lib (decode_call selfLanguage path)
        = DecodeResult.success segments infoLanguage →
      transcribe_file model_size selfLanguage fs path lib t = Except.ok r →
      r.lookup "language"
        = some (jsonOptStr (resultLanguage infoLanguage selfLanguage))) ∧
    (∀ (det : Option String) (conf : Option String),
      resultLanguage (some det) conf = det) ∧
    (∀ conf : Option String, resultLanguage none conf = conf) := by
  refine ⟨fun _ => by simp [decode_call, cliLanguageArg, initLanguage],
    ?_, fun _ _ => rfl, fun _ => rfl⟩
  intro model_size selfLanguage fs path lib t sz segments infoLanguage r hfs hlib hr
  have ht : transcribe_file model_size selfLanguage fs path lib t
      = Except.ok
        [("text", Json.str (String.mk (combineSegments segments))),
         ("language", jsonOptStr (resultLanguage infoLanguage selfLanguage)),
         ("duration", Json.num t),
         ("segments", Json.num (segments.length : ℚ)),
         ("model_size", Json.str model_size),
         ("file_size_mb", Json.num (pyRound2 ((sz : ℚ) / (1024 * 1024))))] := by
    simp [transcribe_file, hfs, hlib]
  rw [ht] at hr
  injection hr with hr2
  subst hr2
  simp [List.lookup]

theorem claim_C6_witness :
    c6SampleResult.lookup "language"
      = some (jsonOptStr (resultLanguage (some (some "en")) none)) :=
  claim_C6_auto_language_and_detection.2.1 "tiny" none fsW "song.mp3" libW 0
    4096 [] (some (some "en")) c6SampleResult rfl rfl rfl

theorem runTranscribeCalls_loaded (h : Nat) (hs : List Nat) :
    runTranscribeCalls { model := some h } hs
      = ({ model := some h }, hs.map (fun _ => ModelEvent.decode h)) := by
  induction hs with
  | nil => rfl
  | cons a as ih => simp [runTranscribeCalls, transcribe_call, ih]

theorem countLoads_decode_map {α : Type} (h : Nat) (l : List α) :
    countLoads (l.map (fun _ => ModelEvent.decode h)) = 0 := by
  induction l with
  | nil => rfl
  | cons a as ih => simp [countLoads, List.filter] at ih ⊢

/-- C5: starting from a fresh transcriber, any nonempty sequence of
`transcribe_file` calls loads the model exactly once — on the first call —
keeps that single handle, decodes only with it, and an empty sequence
performs no load. -/
theorem claim_C5_lazy_single_model_load (first : Nat) (rest : List Nat) :
    (runTranscribeCalls initTranscriber (first :: rest)).1.model = some first ∧
    (runTranscribeCalls initTranscriber (first :: rest)).2
      = ModelEvent.load first :: ModelEvent.decode first ::
          rest.map (fun _ => ModelEvent.decode first) ∧
    countLoads (runTranscribeCalls initTranscriber (first :: rest)).2 = 1 ∧
    (∀ h, ModelEvent.decode h ∈
        (runTranscribeCalls initTranscriber (first :: rest)).2 → h = first) ∧
    countLoads (runTranscribeCalls initTranscriber []).2 = 0 := by
  have hrun : runTranscribeCalls initTranscriber (first :: rest)
      = ({ model := some first },
          ModelEvent.load first :: ModelEvent.decode first ::
            rest.map (fun _ => ModelEvent.decode first)) := by
    simp [runTranscribeCalls, transcribe_call, initTranscriber,
      runTranscribeCalls_loaded]
  refine ⟨by rw [hrun], by rw [hrun], ?_, ?_, rfl⟩
  · rw [hrun]
    simp [countLoads, List.filter]
  · intro h hm
    rw [hrun] at hm
    rcases List.mem_cons.mp hm with h1 | hm2
    · exact absurd h1 (by simp)
    · rcases List.mem_cons.mp hm2 with h2 | hm3
      · injection h2
      · rcases List.mem_map.mp hm3 with ⟨a, _, he⟩
        injection he with hh
        exact hh.symm

theorem claim_C5_witness :
    (runTranscribeCalls initTranscriber [5, 7]).1.model = some 5 ∧
    (5 : Nat) = 5 :=
  ⟨(claim_C5_lazy_single_model_load 5 [7]).1,
    (claim_C5_lazy_single_model_load 5 [7]).2.2.2.1 5 (by decide)⟩

theorem foldl_segments_acc (segs : List (List Char)) :
    ∀ acc : List Char,
      segs.foldl (fun a t => a ++ (t ++ [' '])) acc
        = acc ++ segs.foldl (fun a t => a ++ (t ++ [' '])) [] := by
  induction segs with
  | nil => intro acc; simp
  | cons t ts ih =>
      intro acc
      simp only [List.foldl_cons, List.nil_append]
      rw [ih (acc ++ (t ++ [' '])), ih (t ++ [' '])]
      simp [List.append_assoc]

theorem foldl_segments_join (t : List Char) (ts : List (List Char)) :
    (t :: ts).foldl (fun a u => a ++ (u ++ [' '])) []
      = joinWithSingleSpace (t :: ts) ++ [' '] := by
  induction ts generalizing t with
  | nil => simp [joinWithSingleSpace]
  | cons u us ih =>
      simp only [List.foldl_cons, List.nil_append]
      rw [foldl_segments_acc (us)]
      have h1 := ih u
      simp only [List.foldl_cons, List.nil_append] at h1
      rw [foldl_segments_acc us] at h1
      rw [show joinWithSingleSpace (t :: u :: us)
          = t ++ [' '] ++ joinWithSingleSpace (u :: us) from rfl]
      have h2 := congrArg (fun l => t ++ [' '] ++ l) h1
      simpa [List.append_assoc] using h2

theorem pyRstrip_append_space (xs : List Char) :
    pyRstrip (xs ++ [' ']) = pyRstrip xs := by
  have hsp : isPySpace ' ' = true := by decide
  simp [pyRstrip, List.reverse_append, List.dropWhile_cons, hsp]

theorem pyStrip_append_space (xs : List Char) :
    pyStrip (xs ++ [' ']) = pyStrip xs := by
  simp [pyStrip, pyRstrip_append_space]

/-- C4: the aggregated text equals the segment texts joined with a single
separating space and trimmed at both ends; an empty segment sequence
yields the empty text and a segment count of zero. -/
theorem claim_C4_segment_aggregation :
    (∀ segments : List (List Char),
      combineSegments segments = pyStrip (joinWithSingleSpace segments)) ∧
    combineSegments [] = [] ∧
    (∀ (model_size : String) (selfLanguage : Option String) (fs : FileSystem)
        (path : String) (lib : LibBehavior) (t : ℚ) (sz : Nat)
        (infoLanguage : Option (Option String)) (r : List (String × Json)),
      fs path = some sz →
      lib (decode_call selfLanguage path)
        = DecodeResult.success [] infoLanguage →
      transcribe_file model_size selfLanguage fs path lib t = Except.ok r →
      r.lookup "text" = some (Json.str "") ∧
      r.lookup "segments" = some (Json.num 0)) := by
  refine ⟨?_, rfl, ?_⟩
  · intro segments
    cases segments with
    | nil => rfl
    | cons t ts =>
        unfold combineSegments
        rw [foldl_segments_join t ts]
        exact pyStrip_append_space _
  · intro model_size selfLanguage fs path lib t sz infoLanguage r hfs hlib hr
    have ht : transcribe_file model_size selfLanguage fs path lib t
        = Except.ok
          [("text", Json.str (String.mk (combineSegments []))),
           ("language", jsonOptStr (resultLanguage infoLanguage selfLanguage)),
           ("duration", Json.num t),
           ("segments", Json.num (([] : List (List Char)).length : ℚ)),
           ("model_size", Json.str model_size),
           ("file_size_mb", Json.num (pyRound2 ((sz : ℚ) / (1024 * 1024))))] := by
      simp [transcribe_file, hfs, hlib]
    rw [ht] at hr
    injection hr with hr2
    subst hr2
    constructor
    · simp [List.lookup]
      rfl
    · simp [List.lookup]

theorem claim_C4_witness :
    c4SampleResult.lookup "text" = some (Json.str "") ∧
    c4SampleResult.lookup "segments" = some (Json.num 0) :=
  claim_C4_segment_aggregation.2.2 "tiny" (some "fr") fsW "song.mp3" libW 0
    4096 (some (some "en")) c4SampleResult rfl rfl rfl

/-- C2: the validator accepts exactly the existing files of size at least
1024 bytes whose lowercased extension is in the fixed allow-list; it
rejects missing paths, undersized files, and unlisted extensions. -/
theorem claim_C2_validator_characterization (fs : FileSystem) (p : String) :
    (validate_audio_file fs p = Except.ok true ↔
      (∃ sz, fs p = some sz ∧ 1024 ≤ sz) ∧
        pyLower (pyPathSuffix p) ∈ valid_extensions) ∧
    (fs p = none → validate_audio_file fs p = Except.ok false) ∧
    (∀ sz, fs p = some sz → sz < 1024 →
      validate_audio_file fs p = Except.ok false) ∧
    (pyLower (pyPathSuffix p) ∉ valid_extensions →
      validate_audio_file fs p = Except.ok false) := by
  cases h : fs p with
  | none =>
      have hv := validate_eq_of_missing fs p h
      refine ⟨?_, fun _ => hv, fun sz hsz => by simp [h] at hsz, fun _ => hv⟩
      rw [hv]
      constructor
      · intro he
        exact absurd he (by simp)
      · rintro ⟨⟨sz, hsz, _⟩, _⟩
        exact Option.noConfusion hsz
  | some sz =>
      by_cases hsz : sz < 1024
      · have hv := validate_eq_of_small fs p sz h hsz
        refine ⟨?_, fun hn => by simp [h] at hn, fun _ _ _ => hv, fun _ => hv⟩
        rw [hv]
        constructor
        · intro he
          exact absurd he (by simp)
        · rintro ⟨⟨sz2, hsz2, hge⟩, _⟩
          injection hsz2 with he2
          subst he2
          exact absurd hge (by omega)
      · have hv := validate_eq_of_large fs p sz h hsz
        have hge : 1024 ≤ sz := Nat.le_of_not_lt hsz
        refine ⟨?_, fun hn => by simp [h] at hn, fun sz2 hsz2 hlt => ?_, fun hnm => ?_⟩
        · rw [hv]
          constructor
          · intro he
            injection he with hb
            exact ⟨⟨sz, rfl, hge⟩, of_decide_eq_true hb⟩
          · rintro ⟨_, hmem⟩
            simp [hmem]
        · injection hsz2 with he2
          subst he2
          exact absurd hlt hsz
        · rw [hv]
          simp [hnm]

theorem claim_C2_witness :
    validate_audio_file fsW "song.mp3" = Except.ok true ∧
    validate_audio_file fsW "absent.mp3" = Except.ok false ∧
    validate_audio_file fsW "tiny.wav" = Except.ok false ∧
    validate_audio_file fsW "notes.txt" = Except.ok false :=
  ⟨(claim_C2_validator_characterization fsW "song.mp3").1.mpr
      ⟨⟨4096, rfl, by decide⟩, by decide⟩,
    (claim_C2_validator_characterization fsW "absent.mp3").2.1 rfl,
    (claim_C2_validator_characterization fsW "tiny.wav").2.2.1 500 rfl
      (by decide),
    (claim_C2_validator_characterization fsW "notes.txt").2.2.2 (by decide)⟩

/-- C1: every run prints exactly one JSON object and ends in one of the
four terminal outcomes — invalid-file error, cancellation error, generic
failure error (each with exit code 1), or the success object with exit
code 0. -/
theorem claim_C1_single_json_and_exit_codes (args : CliArgs) (fs : FileSystem)
    (lib : LibBehavior) (t : ℚ) :
    (mainRun args fs lib t).stdout.length = 1 ∧
    (((mainRun args fs lib t).stdout
        = [errorJson ("Invalid or missing audio file: " ++ args.audio_file)] ∧
      (mainRun args fs lib t).exitCode = 1) ∨
     ((mainRun args fs lib t).stdout
        = [errorJson "Transcription cancelled by user"] ∧
      (mainRun args fs lib t).exitCode = 1) ∨
     (∃ msg, (mainRun args fs lib t).stdout
        = [errorJson ("Transcription failed: " ++ msg)] ∧
      (mainRun args fs lib t).exitCode = 1) ∨
     (∃ r, transcribe_file args.model
          (initLanguage (cliLanguageArg args.language)) fs args.audio_file lib t
        = Except.ok r ∧
      (mainRun args fs lib t).stdout = [Json.obj r] ∧
      (mainRun args fs lib t).exitCode = 0)) := by
  cases hv : validate_audio_file fs args.audio_file with
  | error msg =>
      have hm : mainRun args fs lib t
          = { stdout := [errorJson ("Transcription failed: " ++ msg)]
              exitCode := 1
              logLevel := if args.verbose then 20 else 30 } := by
        simp [mainRun, hv]
      rw [hm]
      exact ⟨rfl, Or.inr (Or.inr (Or.inl ⟨msg, rfl, rfl⟩))⟩
  | ok b =>
      cases b with
      | false =>
          have hm : mainRun args fs lib t
              = { stdout :=
                    [errorJson ("Invalid or missing audio file: " ++ args.audio_file)]
                  exitCode := 1
                  logLevel := if args.verbose then 20 else 30 } := by
            simp [mainRun, hv]
          rw [hm]
          exact ⟨rfl, Or.inl ⟨rfl, rfl⟩⟩
      | true =>
          cases ht : transcribe_file args.model
              (initLanguage (cliLanguageArg args.language)) fs args.audio_file
              lib t with
          | ok r =>
              have hm : mainRun args fs lib t
                  = { stdout := [Json.obj r]
                      exitCode := 0
                      logLevel := if args.verbose then 20 else 30 } := by
                simp [mainRun, hv, ht]
              rw [hm]
              exact ⟨rfl, Or.inr (Or.inr (Or.inr ⟨r, rfl, rfl, rfl⟩))⟩
          | error e =>
              cases e with
              | keyboardInterrupt =>
                  have hm : mainRun args fs lib t
                      = { stdout := [errorJson "Transcription cancelled by user"]
                          exitCode := 1
                          logLevel := if args.verbose then 20 else 30 } := by
                    simp [mainRun, hv, ht]
                  rw [hm]
                  exact ⟨rfl, Or.inr (Or.inl ⟨rfl, rfl⟩)⟩
              | error msg =>
                  have hm : mainRun args fs lib t
                      = { stdout := [errorJson ("Transcription failed: " ++ msg)]
                          exitCode := 1
                          logLevel := if args.verbose then 20 else 30 } := by
                    simp [mainRun, hv, ht]
                  rw [hm]
                  exact ⟨rfl, Or.inr (Or.inr (Or.inl ⟨msg, rfl, rfl⟩))⟩

/-- C8: two runs differing only in `--verbose` — with the validator and the
external library behaving identically — print the same JSON on standard
output and exit with the same code; only the logging level differs. -/
theorem claim_C8_verbose_does_not_change_output (args : CliArgs)
    (fs : FileSystem) (lib : LibBehavior) (t : ℚ) :
    (mainRun { args with verbose := true } fs lib t).stdout
      = (mainRun { args with verbose := false } fs lib t).stdout ∧
    (mainRun { args with verbose := true } fs lib t).exitCode
      = (mainRun { args with verbose := false } fs lib t).exitCode := by
  cases hv : validate_audio_file fs args.audio_file with
  | error msg =>
      exact ⟨by simp [mainRun, hv], by simp [mainRun, hv]⟩
  | ok b =>
      cases b with
      | false =>
          exact ⟨by simp [mainRun, hv], by simp [mainRun, hv]⟩
      | true =>
          cases ht : transcribe_file args.model
              (initLanguage (cliLanguageArg args.language)) fs args.audio_file
              lib t with
          | ok r =>
              exact ⟨by simp [mainRun, hv, ht], by simp [mainRun, hv, ht]⟩
          | error e =>
              cases e with
              | keyboardInterrupt =>
                  exact ⟨by simp [mainRun, hv, ht], by simp [mainRun, hv, ht]⟩
              | error msg =>
                  exact ⟨by simp [mainRun, hv, ht], by simp [mainRun, hv, ht]⟩

/-- C3 counterexample: on a concrete successful run, the serialized result
uses the JSON keys `duration` and `segments`; the keys `duration_seconds`
and `segment_count` claimed by the spec do not occur. -/
theorem claim_C3_counterexample :
    c3SampleKeys
      = ["text", "language", "duration", "segments", "model_size",
         "file_size_mb"] ∧
    "duration_seconds" ∉ c3SampleKeys ∧
    "segment_count" ∉ c3SampleKeys := by
  refine ⟨rfl, by decide, by decide⟩

/-- C3 (amended): every successful transcription returns a record with
exactly the six fields, serialized in order under the JSON keys `text`,
`language`, `duration`, `segments`, `model_size`, `file_size_mb` — the
duration-in-seconds and segment-count fields are keyed `duration` and
`segments`, not `duration_seconds` and `segment_count`. -/
theorem claim_C3_amended_result_keys (model_size : String)
    (selfLanguage : Option String) (fs : FileSystem) (path : String)
    (lib : LibBehavior) (t : ℚ) (r : List (String × Json))
    (h : transcribe_file model_size selfLanguage fs path lib t = Except.ok r) :
    r.map Prod.fst
      = ["text", "language", "duration", "segments", "model_size",
         "file_size_mb"] := by
  revert h
  unfold transcribe_file
  cases hfs : fs path with
  | none => exact fun h => Except.noConfusion h
  | some sz =>
      cases hl : lib (decode_call selfLanguage path) with
      | success segments infoLanguage =>
          intro h
          injection h with h2
          subst h2
          rfl
      | interrupt => exact fun h => Except.noConfusion h
      | fail msg => exact fun h => Except.noConfusion h

theorem claim_C3_amended_witness :
    c3SampleResult.map Prod.fst
      = ["text", "language", "duration", "segments", "model_size",
         "file_size_mb"] :=
  claim_C3_amended_result_keys "tiny" (some "en") fsW "song.mp3" libW 0
    c3SampleResult rfl

end Meiko
